import Mathlib

/-!
Shallow embedding of the donor-task integration subsystem of the repository
(app/services/donor_client.py and the donor-tasks router), together with
theorems settling the specification claims about it.

Modelling conventions:
* Time (time.monotonic) is a natural number passed explicitly to each
  operation; the stored fetched_at timestamp uses the same clock.
* The upstream HTTP service is a static environment value: the outcome of
  the bulk list call, the per-id outcome of the detail endpoint, and the
  per-request outcome of write calls.
* Each operation returns its result together with the cache state after the
  call and the list of HTTP requests it issued, in order.
* Python exceptions that the source catches are modelled as failure values
  of the environment; operations are total functions, mirroring the fact
  that the source functions never let an exception escape.
-/

namespace DonorTasks

/-- One contact object attached to a donor task; file_as is the optional
display name (absent or empty falls back to the numeric id in titles). -/
structure Contact where
  id : Nat
  file_as : Option String
deriving Repr, DecidableEq

/-- The raw upstream task representation (donor TaskResponse dict), with the
defaults the source applies via dict.get already folded in for description,
is_thank and contacts; status is kept optional because the source reads it
both with and without a default. -/
structure RawTask where
  id : Nat
  description : String
  status : Option String
  task_date : Option String
  notes : Option String
  is_thank : Bool
  contacts : List Contact
deriving Repr, DecidableEq

/-- The GTD-shaped mapped representation produced by map_task. -/
structure MappedTask where
  donor_task_id : Nat
  title : String
  status : String
  donor_status : Option String
  task_date : Option String
  notes : Option String
  is_thank : Bool
  source : String
deriving Repr, DecidableEq

/-- The module-level in-memory cache (_Cache dataclass). -/
structure Cache where
  tasks : List MappedTask
  fetched_at : Nat
  stale : Bool
deriving Repr, DecidableEq

/-- One outbound HTTP request, as issued by the client methods. The list
request records the params dict the source passes: a limit and an optional
status parameter (the source never sends a status parameter). -/
inductive Req where
  | listTasks (limit : Nat) (status : Option String)
  | getDetail (id : Nat)
  | complete (id : Nat)
  | putStatus (id : Nat) (status : String)
deriving Repr, DecidableEq

/-- Whether a request mutates upstream state. -/
def Req.isWrite : Req → Bool
  | Req.complete _ => true
  | Req.putStatus _ _ => true
  | _ => false

/-- Whether a request is the bulk list read. -/
def Req.isList : Req → Bool
  | Req.listTasks _ _ => true
  | _ => false

/-- Outcome of one GET on the single-task detail endpoint: a 200 response
with a parseable body, a 404, or any other failure (network error, timeout,
other non-2xx, unparseable body). -/
inductive DetailResp where
  | ok (body : RawTask)
  | notFound
  | err
deriving Repr, DecidableEq

/-- The upstream environment: outcome of the bulk list call (error value is
the stringified exception), the response of the detail endpoint per id, and
whether each write request succeeds. -/
structure Upstream where
  listResult : Except String (List RawTask)
  getResp : Nat → DetailResp
  writeOk : Req → Bool

/-- The detail response viewed the way _enrich_contacts uses it: the body on
a 200, nothing otherwise (any other response or exception falls back). -/
def detailOpt (up : Upstream) (id : Nat) : Option RawTask :=
  match up.getResp id with
  | DetailResp.ok r => some r
  | _ => none

/-- DONOR_TO_GTD_STATUS dict lookup, as an optional value. -/
def DONOR_TO_GTD_STATUS (s : String) : Option String :=
  if s = "pending" then some "next_action"
  else if s = "completed" then some "completed"
  else if s = "cancelled" then some "deleted"
  else none

/-- GTD_TO_DONOR_STATUS dict lookup, as an optional value. -/
def GTD_TO_DONOR_STATUS (s : String) : Option String :=
  if s = "completed" then some "completed"
  else if s = "deleted" then some "cancelled"
  else none

/-- The donor-to-local status translation as the source applies it:
DONOR_TO_GTD_STATUS.get(s, "next_action"). -/
def toLocal (s : String) : String :=
  (DONOR_TO_GTD_STATUS s).getD "next_action"

/-- CACHE_TTL_SECONDS constant. -/
def CACHE_TTL_SECONDS : Nat := 300

/-- _build_title: assemble the GTD display title from donor task fields.
A contact display name that is absent or empty (Python falsy) falls back to
the decimal rendering of the contact id. -/
def build_title (description : String) (contacts : List Contact) : String :=
  if contacts.isEmpty then description
  else
    description ++ " - " ++ String.intercalate " & "
      (contacts.map (fun c =>
        match c.file_as with
        | some s => if s = "" then toString c.id else s
        | none => toString c.id))

/-- _map_task: map a donor TaskResponse to the GTD-shaped representation. -/
def map_task (raw : RawTask) : MappedTask :=
  { donor_task_id := raw.id
    title := build_title raw.description raw.contacts
    status := toLocal (raw.status.getD "")
    donor_status := raw.status
    task_date := raw.task_date
    notes := raw.notes
    is_thank := raw.is_thank
    source := "donor_db" }

/-- The post-read narrowing applied by fetch_tasks: Python tests the filter
string for truthiness, so absent or empty means no narrowing. -/
def filterByStatus (status : Option String) (tasks : List MappedTask) :
    List MappedTask :=
  match status with
  | none => tasks
  | some s =>
      if s = "" then tasks
      else tasks.filter (fun t => t.donor_status == some s)

/-- _enrich_contacts: per task, replace the list-level record by the detail
body when the detail GET returns 200, otherwise keep the list-level record. -/
def enrich_contacts (up : Upstream) (tasks : List RawTask) : List RawTask :=
  tasks.map (fun t => (detailOpt up t.id).getD t)

/-- DonorClient.fetch_tasks: serve the cache when it is fresh; otherwise
attempt a full refresh (one unfiltered list call with limit 500 plus one
detail call per listed task) and on any failure serve the previous cached
tasks unchanged. Returns (result, cache after the call, requests issued). -/
def fetch_tasks (c : Cache) (up : Upstream) (now : Nat)
    (status : Option String) : List MappedTask × Cache × List Req :=
  if c.stale = false ∧ now - c.fetched_at < CACHE_TTL_SECONDS then
    (filterByStatus status c.tasks, c, [])
  else
    match up.listResult with
    | Except.ok raw_list =>
        let mapped := (enrich_contacts up raw_list).map map_task
        (filterByStatus status mapped,
         { tasks := mapped, fetched_at := now, stale := false },
         Req.listTasks 500 none :: raw_list.map (fun t => Req.getDetail t.id))
    | Except.error _ =>
        (filterByStatus status c.tasks, c, [Req.listTasks 500 none])

/-- DonorClient.get_task: the detail fetch, returning the mapped body on a
200 and nothing on a 404 or on any other failure. -/
def get_task (up : Upstream) (id : Nat) : Option MappedTask × List Req :=
  (match up.getResp id with
   | DetailResp.ok r => some (map_task r)
   | DetailResp.notFound => none
   | DetailResp.err => none,
   [Req.getDetail id])

/-- The GET /donor-tasks/{id} endpoint handler (get_donor_task in the
router): a 404 error when get_task yields nothing, the task otherwise. -/
def get_donor_task (up : Upstream) (id : Nat) : Except Nat MappedTask :=
  match (get_task up id).1 with
  | none => Except.error 404
  | some t => Except.ok t

/-- The write request update_status issues for a translated donor status:
completed goes to the dedicated completion endpoint, anything else to the
generic PUT carrying the status in the body. -/
def donorWriteReq (id : Nat) (donor_status : String) : Req :=
  if donor_status = "completed" then Req.complete id
  else Req.putStatus id donor_status

/-- DonorClient.update_status: reject statuses with no donor translation
without any upstream call; otherwise issue the write and on success mark the
cache stale, on failure leave the cache untouched. -/
def update_status (c : Cache) (up : Upstream) (id : Nat)
    (new_gtd_status : String) : Bool × Cache × List Req :=
  match GTD_TO_DONOR_STATUS new_gtd_status with
  | none => (false, c, [])
  | some donor_status =>
      if up.writeOk (donorWriteReq id donor_status) then
        (true, { c with stale := true }, [donorWriteReq id donor_status])
      else
        (false, c, [donorWriteReq id donor_status])

/-- One entry of the inconsistencies list of the consistency report. -/
structure ConsistencyEntry where
  donor_task_id : Nat
  cached_status : String
  live_status : String
deriving Repr, DecidableEq

/-- The consistency report returned by check_consistency; the Python dict
carries a varying key set, modelled here with optional fields. -/
structure ConsistencyReport where
  cache_populated : Bool
  cache_age_seconds : Option Nat
  checked_count : Nat
  inconsistencies : List ConsistencyEntry
  message : Option String
  error : Option String
deriving Repr, DecidableEq

/-- Lookup in the dict built by the comprehension keyed on donor_task_id:
for a duplicated key the value of the last occurrence wins, so the lookup
scans the reversed list. -/
def dictGet (tasks : List MappedTask) (id : Nat) : Option MappedTask :=
  tasks.reverse.find? (fun t => t.donor_task_id == id)

/-- Key iteration order of that dict: first-occurrence order with later
duplicates dropped, as Python dicts iterate. -/
def pyKeys (seen : List Nat) : List MappedTask → List Nat
  | [] => []
  | t :: ts =>
      if seen.contains t.donor_task_id then pyKeys seen ts
      else t.donor_task_id :: pyKeys (t.donor_task_id :: seen) ts

/-- The keys of the cached_by_id dict in iteration order. -/
def dictKeys (tasks : List MappedTask) : List Nat :=
  pyKeys [] tasks

/-- The first loop of check_consistency: one drift entry per live task whose
translated status disagrees with the cached record looked up by id; live
tasks without a cached record contribute nothing. -/
def mismatchEntries (cached : List MappedTask) (live : List RawTask) :
    List ConsistencyEntry :=
  live.filterMap (fun l =>
    match dictGet cached l.id with
    | some t =>
        if t.status = toLocal (l.status.getD "") then none
        else some ⟨l.id, t.status, toLocal (l.status.getD "")⟩
    | none => none)

/-- The second loop of check_consistency: one entry per cached id absent
from the set of live ids, with the sentinel live status. -/
def missingEntries (cached : List MappedTask) (live : List RawTask) :
    List ConsistencyEntry :=
  (dictKeys cached).filterMap (fun cid =>
    if (live.map (fun l => l.id)).contains cid then none
    else some ⟨cid, ((dictGet cached cid).map (fun t => t.status)).getD "",
               "missing_from_live"⟩)

/-- DonorClient.check_consistency: with a stale or empty cache report no
baseline and do no work; otherwise issue one uncached list call, surface
its failure in the error field, and on success diff live against cached.
The age field models round(now - fetched_at, 1), exact on integral times. -/
def check_consistency (c : Cache) (up : Upstream) (now : Nat) :
    ConsistencyReport × Cache × List Req :=
  if c.stale = true ∨ c.tasks = [] then
    ({ cache_populated := false
       cache_age_seconds := none
       checked_count := 0
       inconsistencies := []
       message := some "Cache not yet populated; no baseline to compare."
       error := none }, c, [])
  else
    match up.listResult with
    | Except.error e =>
        ({ cache_populated := true
           cache_age_seconds := none
           checked_count := 0
           inconsistencies := []
           message := none
           error := some e }, c, [Req.listTasks 500 none])
    | Except.ok live =>
        ({ cache_populated := true
           cache_age_seconds := some (now - c.fetched_at)
           checked_count := live.length
           inconsistencies := mismatchEntries c.tasks live ++
                              missingEntries c.tasks live
           message := none
           error := none }, c, [Req.listTasks 500 none])

/-- Run a sequence of fetch_tasks calls, threading the cache through and
collecting each result and every request issued. -/
def runReads (up : Upstream) :
    Cache → List (Nat × Option String) →
    List (List MappedTask) × Cache × List Req
  | c, [] => ([], c, [])
  | c, (now, filt) :: rest =>
      let r := fetch_tasks c up now filt
      let rest2 := runReads up r.2.1 rest
      (r.1 :: rest2.1, rest2.2.1, r.2.2 ++ rest2.2.2)

/-! Concrete fixtures used by witnesses and counterexamples. -/

/-- A pending upstream task with no contacts. -/
def rawPending : RawTask := ⟨1, "Call donor", some "pending", none, none, false, []⟩

/-- A completed upstream task with one nameless contact. -/
def rawDone : RawTask := ⟨2, "Thank donor", some "completed", none, none, true, [⟨9, none⟩]⟩

/-- An upstream whose list call succeeds with two tasks, whose detail
endpoint fails, and whose writes succeed. -/
def upOk : Upstream :=
  ⟨Except.ok [rawPending, rawDone], fun _ => DetailResp.err, fun _ => true⟩

/-- An upstream whose every call fails. -/
def upFail : Upstream :=
  ⟨Except.error "connection refused", fun _ => DetailResp.err, fun _ => false⟩

/-- A cache freshly populated at time 10 with the two mapped fixtures. -/
def cachePopulated : Cache := ⟨[map_task rawPending, map_task rawDone], 10, false⟩

/-- The same snapshot with the staleness flag set. -/
def cacheStale : Cache := ⟨[map_task rawPending, map_task rawDone], 10, true⟩

/-! Claim theorems. -/

/-- Claim C7: the upstream-to-local status translation is total: pending
maps to next_action, completed to completed, cancelled to deleted, and
every other string also yields next_action, never an undefined value. -/
theorem toLocal_total (s : String) :
    toLocal "pending" = "next_action" ∧
    toLocal "completed" = "completed" ∧
    toLocal "cancelled" = "deleted" ∧
    (s ≠ "pending" → s ≠ "completed" → s ≠ "cancelled" →
      toLocal s = "next_action") := by
  refine ⟨rfl, rfl, rfl, fun h1 h2 h3 => ?_⟩
  simp [toLocal, DONOR_TO_GTD_STATUS, h1, h2, h3]

/-- Witness for claim C7 at a string outside the translation table. -/
theorem toLocal_total_witness : toLocal "archived" = "next_action" :=
  (toLocal_total "archived").2.2.2 (by decide) (by decide) (by decide)

/-- Claim C1: on a stale or expired cache, a failing upstream list call
makes fetch_tasks return the previous snapshot narrowed by the optional
status filter, and the failed refresh leaves the cached tasks, the
fetched-at timestamp and the staleness flag exactly as they were. -/
theorem fetch_tasks_degrades_on_failure (c : Cache) (up : Upstream)
    (now : Nat) (status : Option String) (e : String)
    (hstale : c.stale = true ∨ CACHE_TTL_SECONDS ≤ now - c.fetched_at)
    (hfail : up.listResult = Except.error e) :
    (fetch_tasks c up now status).1 = filterByStatus status c.tasks ∧
    (fetch_tasks c up now status).2.1 = c := by
  have hcond : ¬ (c.stale = false ∧ now - c.fetched_at < CACHE_TTL_SECONDS) := by
    rcases hstale with h | h
    · rintro ⟨h1, -⟩
      rw [h] at h1
      cases h1
    · rintro ⟨-, h2⟩
      omega
  simp [fetch_tasks, if_neg hcond, hfail]

/-- Witness for claim C1: a populated stale cache served through a dead
upstream. -/
theorem fetch_tasks_degrades_on_failure_witness :
    (fetch_tasks cacheStale upFail 10 (some "pending")).1 =
      filterByStatus (some "pending") cacheStale.tasks ∧
    (fetch_tasks cacheStale upFail 10 (some "pending")).2.1 = cacheStale :=
  fetch_tasks_degrades_on_failure cacheStale upFail 10 (some "pending")
    "connection refused" (Or.inl rfl) rfl

/-- Claim C4 fails on the source: get_task also yields the absent value on
a failure that is not an upstream not-found, and the endpoint then answers
404. Here the detail call fails with a transport error at id 7, yet the
result is absent and the endpoint reports 404. -/
theorem get_task_absent_counterexample :
    upFail.getResp 7 ≠ DetailResp.notFound ∧
    (get_task upFail 7).1 = none ∧
    get_donor_task upFail 7 = Except.error 404 := by
  refine ⟨by decide, rfl, rfl⟩

/-- Claim C4 amended: get_task yields the absent value on an upstream
not-found and also on every other failure, and yields a task exactly on a
successful response; the endpoint answers 404 exactly when get_task yields
the absent value. -/
theorem get_task_absent_iff (up : Upstream) (id : Nat) :
    ((get_task up id).1 = none ↔
      up.getResp id = DetailResp.notFound ∨ up.getResp id = DetailResp.err) ∧
    (get_donor_task up id = Except.error 404 ↔ (get_task up id).1 = none) := by
  cases h : up.getResp id <;> simp [get_task, get_donor_task, h]

/-- Claim C9: check_consistency returns the cache state unchanged in every
situation, and its request list is empty or a single bulk list read; in
particular it never issues a write and never performs a refresh. -/
theorem check_consistency_readonly (c : Cache) (up : Upstream) (now : Nat) :
    (check_consistency c up now).2.1 = c ∧
    ((check_consistency c up now).2.2 = [] ∨
     (check_consistency c up now).2.2 = [Req.listTasks 500 none]) := by
  by_cases hg : c.stale = true ∨ c.tasks = []
  · simp [check_consistency, hg]
  · cases h : up.listResult <;> simp [check_consistency, hg, h]

/-- Detail requests are not bulk list reads. -/
theorem filter_isList_getDetail (l : List RawTask) :
    (l.map (fun t => Req.getDetail t.id)).filter Req.isList = [] := by
  induction l with
  | nil => rfl
  | cons a t ih => simp [List.filter_cons, Req.isList, ih]

/-- A fetch on a cache whose staleness flag is set issues exactly one bulk
list request, whether the refresh succeeds or fails. -/
theorem fetch_on_stale_one_list (c : Cache) (up : Upstream) (now : Nat)
    (filt : Option String) (hstale : c.stale = true) :
    ((fetch_tasks c up now filt).2.2.filter Req.isList).length = 1 := by
  have hcond : ¬ (c.stale = false ∧ now - c.fetched_at < CACHE_TTL_SECONDS) := by
    rintro ⟨h1, -⟩
    rw [hstale] at h1
    cases h1
  cases h : up.listResult with
  | ok raw =>
      simp [fetch_tasks, if_neg hcond, h, List.filter_cons, Req.isList,
        filter_isList_getDetail]
  | error e =>
      simp [fetch_tasks, if_neg hcond, h, List.filter_cons, Req.isList]

/-- Claim C2: for a supported local status, a successful update_status sets
the staleness flag (and nothing prevents it from returning success), so the
very next fetch_tasks performs exactly one fresh bulk list call regardless
of remaining TTL; a failed update_status returns failure and leaves the
whole cache state unchanged. -/
theorem update_status_invalidates (c : Cache) (up : Upstream) (id : Nat)
    (s : String) (hs : s = "completed" ∨ s = "deleted") :
    (up.writeOk (donorWriteReq id ((GTD_TO_DONOR_STATUS s).getD "")) = true →
      update_status c up id s =
        (true, { c with stale := true },
         [donorWriteReq id ((GTD_TO_DONOR_STATUS s).getD "")]) ∧
      ∀ (up2 : Upstream) (now : Nat) (filt : Option String),
        ((fetch_tasks { c with stale := true } up2 now filt).2.2.filter
          Req.isList).length = 1) ∧
    (up.writeOk (donorWriteReq id ((GTD_TO_DONOR_STATUS s).getD "")) = false →
      update_status c up id s =
        (false, c, [donorWriteReq id ((GTD_TO_DONOR_STATUS s).getD "")])) := by
  have hnext : ∀ (up2 : Upstream) (now : Nat) (filt : Option String),
      ((fetch_tasks { c with stale := true } up2 now filt).2.2.filter
        Req.isList).length = 1 :=
    fun up2 now filt => fetch_on_stale_one_list _ up2 now filt rfl
  have hcompleted : GTD_TO_DONOR_STATUS "completed" = some "completed" := by
    decide
  have hdeleted : GTD_TO_DONOR_STATUS "deleted" = some "cancelled" := by
    decide
  rcases hs with rfl | rfl
  · have hds : (GTD_TO_DONOR_STATUS "completed").getD "" = "completed" := by
      decide
    rw [hds]
    constructor
    · intro hw
      exact ⟨by simp [update_status, hcompleted, hw], hnext⟩
    · intro hw
      simp [update_status, hcompleted, hw]
  · have hds : (GTD_TO_DONOR_STATUS "deleted").getD "" = "cancelled" := by
      decide
    rw [hds]
    constructor
    · intro hw
      exact ⟨by simp [update_status, hdeleted, hw], hnext⟩
    · intro hw
      simp [update_status, hdeleted, hw]

/-- Witness for claim C2: completing task 5 against a healthy upstream. -/
theorem update_status_invalidates_witness :
    update_status cachePopulated upOk 5 "completed" =
      (true, { cachePopulated with stale := true },
       [donorWriteReq 5 ((GTD_TO_DONOR_STATUS "completed").getD "")]) ∧
    ((fetch_tasks { cachePopulated with stale := true } upOk 11 none).2.2.filter
      Req.isList).length = 1 := by
  have h := (update_status_invalidates cachePopulated upOk 5 "completed"
    (Or.inl rfl)).1 rfl
  exact ⟨h.1, h.2 upOk 11 none⟩

/-- The cache produced by a successful populating fetch from the empty
initial cache at time 0. -/
def cacheAfterPopulate : Cache := (fetch_tasks ⟨[], 0, true⟩ upOk 0 none).2.1

/-- That cache after a successful update_status call. -/
def cacheAfterUpdate : Cache :=
  (update_status cacheAfterPopulate upOk 5 "completed").2.1

/-- Claim C3 fails on the source: after a successful population followed by
a successful status update, the cache has been successfully populated, yet
check_consistency reports cache_populated = false and does no upstream
work, because its guard tests staleness rather than population history. -/
theorem check_consistency_guard_counterexample :
    cacheAfterPopulate.stale = false ∧ cacheAfterPopulate.tasks ≠ [] ∧
    (update_status cacheAfterPopulate upOk 5 "completed").1 = true ∧
    (check_consistency cacheAfterUpdate upOk 2).1.cache_populated = false ∧
    (check_consistency cacheAfterUpdate upOk 2).2.2 = [] := by
  decide

/-- Claim C3 amended: check_consistency reports cache_populated = false and
performs no upstream call exactly when the cache is stale or its task list
is empty; in every other cache state it issues one fresh bulk list call and
reports cache_populated = true. -/
theorem check_consistency_guard (c : Cache) (up : Upstream) (now : Nat) :
    ((check_consistency c up now).1.cache_populated = false ∧
       (check_consistency c up now).2.2 = [] ↔
     c.stale = true ∨ c.tasks = []) ∧
    (c.stale = false → c.tasks ≠ [] →
      (check_consistency c up now).1.cache_populated = true ∧
      (check_consistency c up now).2.2 = [Req.listTasks 500 none]) := by
  by_cases hg : c.stale = true ∨ c.tasks = []
  · refine ⟨by simp [check_consistency, hg], fun h1 h2 => ?_⟩
    rcases hg with h | h
    · rw [h1] at h
      cases h
    · exact absurd h h2
  · cases h : up.listResult <;> simp [check_consistency, hg, h]

/-- Witness for claim C3 amended, on a fresh populated cache. -/
theorem check_consistency_guard_witness :
    (check_consistency cachePopulated upOk 12).1.cache_populated = true ∧
    (check_consistency cachePopulated upOk 12).2.2 =
      [Req.listTasks 500 none] :=
  (check_consistency_guard cachePopulated upOk 12).2 rfl (by decide)

/-- Claim C5: a refreshing filtered fetch issues one bulk list call with
limit 500 and no status parameter (plus one detail call per listed task),
stores the complete mapped set in the cache, narrows only the returned list
to the tasks whose upstream status equals the filter, and an immediately
following unfiltered read returns every stored task. -/
theorem fetch_tasks_filter_unbiased (c : Cache) (up : Upstream) (now : Nat)
    (s : String) (raw : List RawTask)
    (hstale : c.stale = true ∨ CACHE_TTL_SECONDS ≤ now - c.fetched_at)
    (hok : up.listResult = Except.ok raw) (hs : s ≠ "") :
    (fetch_tasks c up now (some s)).2.2 =
      Req.listTasks 500 none :: raw.map (fun t => Req.getDetail t.id) ∧
    (fetch_tasks c up now (some s)).2.1.tasks =
      (enrich_contacts up raw).map map_task ∧
    (fetch_tasks c up now (some s)).1 =
      ((enrich_contacts up raw).map map_task).filter
        (fun t => t.donor_status == some s) ∧
    (fetch_tasks (fetch_tasks c up now (some s)).2.1 up now none).1 =
      (enrich_contacts up raw).map map_task := by
  have hcond : ¬ (c.stale = false ∧ now - c.fetched_at < CACHE_TTL_SECONDS) := by
    rcases hstale with h | h
    · rintro ⟨h1, -⟩
      rw [h] at h1
      cases h1
    · rintro ⟨-, h2⟩
      omega
  have hfresh : (0 : Nat) < CACHE_TTL_SECONDS := by decide
  refine ⟨?_, ?_, ?_, ?_⟩ <;>
    simp [fetch_tasks, if_neg hcond, hok, filterByStatus, hs, hfresh]

/-- Witness for claim C5: a pending-filtered fetch on a stale cache. -/
theorem fetch_tasks_filter_unbiased_witness :
    (fetch_tasks cacheStale upOk 400 (some "pending")).2.2 =
      Req.listTasks 500 none ::
        [rawPending, rawDone].map (fun t => Req.getDetail t.id) ∧
    (fetch_tasks cacheStale upOk 400 (some "pending")).2.1.tasks =
      (enrich_contacts upOk [rawPending, rawDone]).map map_task ∧
    (fetch_tasks cacheStale upOk 400 (some "pending")).1 =
      ((enrich_contacts upOk [rawPending, rawDone]).map map_task).filter
        (fun t => t.donor_status == some "pending") ∧
    (fetch_tasks (fetch_tasks cacheStale upOk 400 (some "pending")).2.1 upOk
        400 none).1 =
      (enrich_contacts upOk [rawPending, rawDone]).map map_task :=
  fetch_tasks_filter_unbiased cacheStale upOk 400 "pending"
    [rawPending, rawDone] (Or.inl rfl) rfl (by decide)

/-- Claim C6: starting from the cache left by one successful refresh, any
sequence of reads whose times fall inside the TTL window issues no HTTP
request at all: each read returns the cached snapshot narrowed by its own
filter, and the cache state never changes. -/
theorem fetch_tasks_ttl_no_refetch (c : Cache) (up : Upstream)
    (calls : List (Nat × Option String)) (hfresh : c.stale = false)
    (hwin : ∀ p ∈ calls, p.1 - c.fetched_at < CACHE_TTL_SECONDS) :
    runReads up c calls =
      (calls.map (fun p => filterByStatus p.2 c.tasks), c, []) := by
  induction calls with
  | nil => rfl
  | cons p rest ih =>
      obtain ⟨now, filt⟩ := p
      have hp : now - c.fetched_at < CACHE_TTL_SECONDS :=
        hwin (now, filt) (List.mem_cons_self _ _)
      have hrest := ih (fun q hq => hwin q (List.mem_cons_of_mem _ hq))
      simp [runReads, fetch_tasks, if_pos (And.intro hfresh hp), hrest]

/-- Witness for claim C6: three reads at times 10, 200 and 309 against a
cache fetched at 10, with a dead upstream that is never contacted. -/
theorem fetch_tasks_ttl_no_refetch_witness :
    runReads upFail cachePopulated
      [(10, none), (200, some "pending"), (309, none)] =
      (([(10, none), (200, some "pending"), (309, none)] :
          List (Nat × Option String)).map
        (fun p => filterByStatus p.2 cachePopulated.tasks),
       cachePopulated, []) :=
  fetch_tasks_ttl_no_refetch cachePopulated upFail
    [(10, none), (200, some "pending"), (309, none)] rfl (by decide)

/-- A successful dict lookup yields a member of the task list carrying the
looked-up id. -/
theorem dictGet_mem (tasks : List MappedTask) (id : Nat) (t : MappedTask)
    (h : dictGet tasks id = some t) :
    t ∈ tasks ∧ t.donor_task_id = id := by
  unfold dictGet at h
  have h1 := List.mem_of_find?_eq_some h
  have h2 := List.find?_some h
  rw [List.mem_reverse] at h1
  exact ⟨h1, by simpa using h2⟩

/-- Every key produced by the dict key iteration comes from some task. -/
theorem pyKeys_sub (ts : List MappedTask) (seen : List Nat) (k : Nat)
    (h : k ∈ pyKeys seen ts) : ∃ t ∈ ts, t.donor_task_id = k := by
  induction ts generalizing seen with
  | nil => cases h
  | cons a ts ih =>
      unfold pyKeys at h
      by_cases hc : seen.contains a.donor_task_id = true
      · rw [if_pos hc] at h
        obtain ⟨t, ht, hk⟩ := ih _ h
        exact ⟨t, List.mem_cons_of_mem _ ht, hk⟩
      · rw [if_neg hc] at h
        rcases List.mem_cons.mp h with rfl | h2
        · exact ⟨a, List.mem_cons_self _ _, rfl⟩
        · obtain ⟨t, ht, hk⟩ := ih _ h2
          exact ⟨t, List.mem_cons_of_mem _ ht, hk⟩

/-- When the cached ids are distinct, the last-occurrence dict lookup is the
plain first-match search. -/
theorem dictGet_eq_find (tasks : List MappedTask) (id : Nat)
    (h : (tasks.map (fun t => t.donor_task_id)).Nodup) :
    dictGet tasks id = tasks.find? (fun t => t.donor_task_id == id) := by
  induction tasks with
  | nil => rfl
  | cons a ts ih =>
      rw [List.map_cons, List.nodup_cons] at h
      show ((a :: ts).reverse.find? (fun t => t.donor_task_id == id)) = _
      rw [List.reverse_cons, List.find?_append]
      by_cases ha : (a.donor_task_id == id) = true
      · have hid : a.donor_task_id = id := by simpa using ha
        have hnone : ts.reverse.find? (fun t => t.donor_task_id == id) = none := by
          rw [List.find?_eq_none]
          intro x hx hpx
          have hxid : x.donor_task_id = id := by simpa using hpx
          have hxmem : x.donor_task_id ∈ ts.map (fun t => t.donor_task_id) :=
            List.mem_map_of_mem _ (List.mem_reverse.mp hx)
          rw [hxid, ← hid] at hxmem
          exact h.1 hxmem
        rw [hnone, Option.none_or]
        simp [List.find?_cons, ha]
      · have ha2 : (a.donor_task_id == id) = false := by
          rwa [Bool.not_eq_true] at ha
        have hih : ts.reverse.find? (fun t => t.donor_task_id == id) =
            ts.find? (fun t => t.donor_task_id == id) := ih h.2
        simp [List.find?_cons, ha2, hih]

/-- When the cached ids are distinct, looking up the id of a member yields
that member. -/
theorem find_self_of_nodup (tasks : List MappedTask) (t : MappedTask)
    (h : (tasks.map (fun x => x.donor_task_id)).Nodup) (ht : t ∈ tasks) :
    tasks.find? (fun x => x.donor_task_id == t.donor_task_id) = some t := by
  induction tasks with
  | nil => cases ht
  | cons a ts ih =>
      rw [List.map_cons, List.nodup_cons] at h
      rcases List.mem_cons.mp ht with rfl | hmem
      · simp [List.find?_cons]
      · have hne : (a.donor_task_id == t.donor_task_id) = false := by
          rw [beq_eq_false_iff_ne]
          intro he
          exact h.1 (he ▸ List.mem_map_of_mem _ hmem)
        simp [List.find?_cons, hne, ih h.2 hmem]

/-- Combination of the two previous lemmas at a member id. -/
theorem dictGet_self (tasks : List MappedTask) (t : MappedTask)
    (h : (tasks.map (fun x => x.donor_task_id)).Nodup) (ht : t ∈ tasks) :
    dictGet tasks t.donor_task_id = some t := by
  rw [dictGet_eq_find _ _ h]
  exact find_self_of_nodup _ _ h ht

/-- When the cached ids are distinct, the dict key iteration is exactly the
id projection of the task list. -/
theorem pyKeys_eq_map (tasks : List MappedTask) :
    ∀ seen : List Nat,
    (tasks.map (fun t => t.donor_task_id)).Nodup →
    (∀ t ∈ tasks, seen.contains t.donor_task_id = false) →
    pyKeys seen tasks = tasks.map (fun t => t.donor_task_id) := by
  induction tasks with
  | nil =>
      intro seen _ _
      rfl
  | cons a ts ih =>
      intro seen hnd hseen
      rw [List.map_cons, List.nodup_cons] at hnd
      have h1 : seen.contains a.donor_task_id = false :=
        hseen a (List.mem_cons_self _ _)
      unfold pyKeys
      rw [if_neg (by rw [h1]; exact Bool.false_ne_true)]
      rw [List.map_cons]
      congr 1
      apply ih _ hnd.2
      intro t ht
      have h2 : seen.contains t.donor_task_id = false :=
        hseen t (List.mem_cons_of_mem _ ht)
      have h3 : (t.donor_task_id == a.donor_task_id) = false := by
        rw [beq_eq_false_iff_ne]
        intro he
        exact hnd.1 (he ▸ List.mem_map_of_mem _ ht)
      rw [List.contains_cons, h2, h3]
      rfl

/-- Under distinct cached ids, the missing-from-live loop visits exactly the
cached tasks in order. -/
theorem missingEntries_eq (cached : List MappedTask) (live : List RawTask)
    (h : (cached.map (fun t => t.donor_task_id)).Nodup) :
    missingEntries cached live =
      cached.filterMap (fun t =>
        if (live.map (fun l => l.id)).contains t.donor_task_id then none
        else some ⟨t.donor_task_id, t.status, "missing_from_live"⟩) := by
  unfold missingEntries dictKeys
  rw [pyKeys_eq_map cached [] h (fun t _ => rfl), List.filterMap_map]
  apply List.filterMap_congr
  intro t ht
  simp only [Function.comp_apply]
  by_cases hin : (live.map (fun l => l.id)).contains t.donor_task_id = true
  · rw [if_pos hin, if_pos hin]
  · rw [if_neg hin, if_neg hin, dictGet_self cached t h ht]
    rfl

/-- Under distinct cached ids, the per-live-task lookup of the drift loop is
the plain first-match search. -/
theorem mismatchEntries_eq (cached : List MappedTask) (live : List RawTask)
    (h : (cached.map (fun t => t.donor_task_id)).Nodup) :
    mismatchEntries cached live =
      live.filterMap (fun l =>
        match cached.find? (fun t => t.donor_task_id == l.id) with
        | some t =>
            if t.status = toLocal (l.status.getD "") then none
            else some ⟨l.id, t.status, toLocal (l.status.getD "")⟩
        | none => none) := by
  unfold mismatchEntries
  apply List.filterMap_congr
  intro l _
  rw [dictGet_eq_find _ _ h]

/-- Claim C8: with a populated cache of distinct ids and a successful live
fetch, the reported inconsistencies are exactly one entry per live task
whose translated status differs from the cached record with the same id,
recording the id and both statuses, followed by one missing_from_live entry
per cached task whose id is absent from the live list; the report carries
the count of live tasks examined and the cache age in seconds. -/
theorem check_consistency_drift_report (c : Cache) (up : Upstream)
    (now : Nat) (live : List RawTask) (hstale : c.stale = false)
    (hne : c.tasks ≠ []) (hok : up.listResult = Except.ok live)
    (hnodup : (c.tasks.map (fun t => t.donor_task_id)).Nodup) :
    (check_consistency c up now).1.inconsistencies =
      live.filterMap (fun l =>
        match c.tasks.find? (fun t => t.donor_task_id == l.id) with
        | some t =>
            if t.status = toLocal (l.status.getD "") then none
            else some ⟨l.id, t.status, toLocal (l.status.getD "")⟩
        | none => none) ++
      c.tasks.filterMap (fun t =>
        if (live.map (fun l => l.id)).contains t.donor_task_id then none
        else some ⟨t.donor_task_id, t.status, "missing_from_live"⟩) ∧
    (check_consistency c up now).1.checked_count = live.length ∧
    (check_consistency c up now).1.cache_age_seconds =
      some (now - c.fetched_at) := by
  have hg : ¬ (c.stale = true ∨ c.tasks = []) := by
    rintro (h | h)
    · rw [hstale] at h
      cases h
    · exact hne h
  refine ⟨?_, ?_, ?_⟩ <;>
    simp [check_consistency, if_neg hg, hok,
      mismatchEntries_eq c.tasks live hnodup,
      missingEntries_eq c.tasks live hnodup]

/-- A live record for task 1 whose upstream status moved to completed. -/
def rawDrift : RawTask := ⟨1, "Call donor", some "completed", none, none, false, []⟩

/-- An upstream whose live list holds only the drifted task 1. -/
def upDrift : Upstream :=
  ⟨Except.ok [rawDrift], fun _ => DetailResp.err, fun _ => true⟩

/-- Witness for claim C8: live task 1 drifted to completed and cached task 2
missing from live. -/
theorem check_consistency_drift_report_witness :
    (check_consistency cachePopulated upDrift 12).1.inconsistencies =
      ([rawDrift] : List RawTask).filterMap (fun l =>
        match cachePopulated.tasks.find?
            (fun t => t.donor_task_id == l.id) with
        | some t =>
            if t.status = toLocal (l.status.getD "") then none
            else some ⟨l.id, t.status, toLocal (l.status.getD "")⟩
        | none => none) ++
      cachePopulated.tasks.filterMap (fun t =>
        if (([rawDrift] : List RawTask).map (fun l => l.id)).contains
            t.donor_task_id then none
        else some ⟨t.donor_task_id, t.status, "missing_from_live"⟩) ∧
    (check_consistency cachePopulated upDrift 12).1.checked_count =
      ([rawDrift] : List RawTask).length ∧
    (check_consistency cachePopulated upDrift 12).1.cache_age_seconds =
      some (12 - cachePopulated.fetched_at) :=
  check_consistency_drift_report cachePopulated upDrift 12 [rawDrift] rfl
    (by decide) rfl (by decide)

/-- Claim C10: every reported drift entry carries the id of some cached
task, so a live task with no cached counterpart produces no entry at all,
while still being counted among the live tasks examined. -/
theorem check_consistency_unknown_live_invisible (c : Cache) (up : Upstream)
    (now : Nat) (live : List RawTask) (hstale : c.stale = false)
    (hne : c.tasks ≠ []) (hok : up.listResult = Except.ok live) :
    ((check_consistency c up now).1.inconsistencies.all
      (fun e => c.tasks.any
        (fun t => t.donor_task_id == e.donor_task_id)) = true) ∧
    (check_consistency c up now).1.checked_count = live.length := by
  have hg : ¬ (c.stale = true ∨ c.tasks = []) := by
    rintro (h | h)
    · rw [hstale] at h
      cases h
    · exact hne h
  have hrep : (check_consistency c up now).1.inconsistencies =
      mismatchEntries c.tasks live ++ missingEntries c.tasks live := by
    simp [check_consistency, if_neg hg, hok]
  refine ⟨?_, by simp [check_consistency, if_neg hg, hok]⟩
  rw [hrep, List.all_eq_true]
  intro e he
  rw [List.any_eq_true]
  rcases List.mem_append.mp he with hm | hm
  · obtain ⟨l, hl, hfl⟩ := List.mem_filterMap.mp hm
    split at hfl
    · split at hfl
      · cases hfl
      · injection hfl with hfl2
        rename_i t hd hst
        obtain ⟨hmem, hid⟩ := dictGet_mem _ _ _ hd
        refine ⟨t, hmem, ?_⟩
        rw [← hfl2]
        simp [hid]
    · cases hfl
  · obtain ⟨cid, hcid, hfc⟩ := List.mem_filterMap.mp hm
    split at hfc
    · cases hfc
    · injection hfc with hfc2
      obtain ⟨t, ht, hk⟩ := pyKeys_sub _ _ _ hcid
      refine ⟨t, ht, ?_⟩
      rw [← hfc2]
      simp [hk]

/-- A live record with id 3 that the cache has never seen. -/
def rawNew : RawTask := ⟨3, "New donor", some "pending", none, none, false, []⟩

/-- An upstream whose live list holds only the unknown task 3. -/
def upNewLive : Upstream :=
  ⟨Except.ok [rawNew], fun _ => DetailResp.err, fun _ => true⟩

/-- Witness for claim C10: the unknown live task 3 against the two-task
cache. -/
theorem check_consistency_unknown_live_invisible_witness :
    ((check_consistency cachePopulated upNewLive 12).1.inconsistencies.all
      (fun e => cachePopulated.tasks.any
        (fun t => t.donor_task_id == e.donor_task_id)) = true) ∧
    (check_consistency cachePopulated upNewLive 12).1.checked_count =
      ([rawNew] : List RawTask).length :=
  check_consistency_unknown_live_invisible cachePopulated upNewLive 12
    [rawNew] rfl (by decide) rfl

end DonorTasks
